import Mathlib

/-!
Verification of `test-rls-roles.py`, the RLS role-testing script of the
church-sacco-platform repository.

The script drives a remote database through a single RPC endpoint
(`supabase.rpc('exec_sql', {'sql': ...}).execute()`): it applies a migration,
seeds fixture data, and then, for each of five roles, sets ambient JWT claims,
runs an ordered list of `(test_name, query, expected_result)` triples, and
clears the claims.  Each RPC call either returns data or raises an exception.

The embedding below models the external database as a response stream
`DB : Nat → Except String String` — the result of the k-th RPC call issued by
the script, counted in program order (`Except.ok data` when the call returned,
`Except.error msg` when it raised, `msg` being `str(e)`).  The script's
observable behaviour is modelled as: the classification verdicts it derives,
the SQL texts it sends, and the transcript of lines it prints.
-/

/-- The external database RPC boundary: the response to the k-th `exec_sql`
call made by the script (in program order). -/
def DB : Type := Nat → Except String String

/-- One `(test_name, query, expected_result)` triple from the test catalogs
(source lines 145-285). -/
structure TestCase where
  test_name : String
  query : String
  expected_result : String
  deriving DecidableEq, Repr

/-- The raw result of running one statement: `succeeded` reflects whether the
RPC call raised, `payload` the returned data, `error` the exception text. -/
structure ExecutionOutcome where
  succeeded : Bool
  payload : Option String
  error : Option String
  deriving DecidableEq, Repr

/-- Conversion of an RPC response into an `ExecutionOutcome`: this is the
try/except at source lines 115-128, which lets no exception escape — a raised
exception becomes `succeeded = false` with the message captured. -/
def mkOutcome : Except String String → ExecutionOutcome
  | Except.ok d => { succeeded := true, payload := some d, error := none }
  | Except.error e => { succeeded := false, payload := none, error := some e }

/-- The three verdict classes the per-case print branches of source lines
118-128 distinguish (the two `✅ PASS`/`✅ Result` branches both report a pass). -/
inductive Classification where
  | PASS
  | UNEXPECTED_FAIL
  | UNEXPECTED_SUCCESS
  deriving DecidableEq, Repr

/-- The expectation classifier: the branch structure of source lines 118-128.
On success (no exception): `"SUCCESS"` passes, `"FAIL"` is an unexpected
success, and any other expectation string falls to the `else` branch that
surfaces the result (a pass).  On failure: `"FAIL"` passes, anything else is
an unexpected failure. -/
def classify (expected_result : String) (o : ExecutionOutcome) : Classification :=
  if o.succeeded then
    if expected_result = "SUCCESS" then Classification.PASS
    else if expected_result = "FAIL" then Classification.UNEXPECTED_SUCCESS
    else Classification.PASS
  else
    if expected_result = "FAIL" then Classification.PASS
    else Classification.UNEXPECTED_FAIL

/-- The line printed for one case by source lines 118-128 (exception messages
are truncated to 100 characters, `str(e)[:100]`). -/
def classLine (expected_result : String) : Except String String → String
  | Except.ok d =>
      if expected_result = "SUCCESS" then "   ✅ PASS - Query executed successfully"
      else if expected_result = "FAIL" then
        "   ❌ UNEXPECTED - Query should have failed but succeeded"
      else "   ✅ Result: " ++ d
  | Except.error e =>
      if expected_result = "FAIL" then
        "   ✅ PASS - Query correctly blocked: " ++ e.take 100
      else "   ❌ FAIL - Unexpected error: " ++ e.take 100

/-- The classifier's judgment for one test case, paired with the case and the
outcome it judged. -/
structure Verdict where
  tc : TestCase
  outcome : ExecutionOutcome
  classification : Classification
  deriving DecidableEq, Repr

/-- The verdict produced for case `c` when the RPC call answering its query
returned `r`. -/
def mkVerdict (r : Except String String) (c : TestCase) : Verdict :=
  { tc := c, outcome := mkOutcome r, classification := classify c.expected_result (mkOutcome r) }

/-- The per-case loop of source lines 111-128, verdict view: the k-th case
consumes the response at stream position `n + k`.  Each iteration has its own
try/except, so a failing case never stops the loop. -/
def runCases (db : DB) : Nat → List TestCase → List Verdict
  | _, [] => []
  | n, c :: rest => mkVerdict (db n) c :: runCases db (n + 1) rest

/-- The per-case loop of source lines 111-128, transcript view: the three
lines printed per case (header, truncated query, classification line). -/
def casesOutput (db : DB) : Nat → List TestCase → List String
  | _, [] => []
  | n, c :: rest =>
      ("\n📌 Test: " ++ c.test_name) ::
      ("   Query: " ++ c.query.take 100 ++ "...") ::
      classLine c.expected_result (db n) ::
      casesOutput db (n + 1) rest

/-- Python truthiness of an optional string (`if branch_id:` / `not branch_id`):
`none` and the empty string are falsy. -/
def pyTruthy : Option String → Bool
  | none => false
  | some s => decide (s ≠ "")

/-- The claim-slot encoding of source lines 99-100,
`'NULL' if not branch_id else f"'{branch_id}'"`: a falsy value (absent or
empty) becomes the SQL keyword `NULL`, anything else a quoted literal. -/
def encodeClaim (v : Option String) : String :=
  if pyTruthy v then "'" ++ v.getD "" ++ "'" else "NULL"

/-- The claim-setting SQL of source lines 97-101, whitespace included. -/
def set_claims_sql (role_name : String) (branch_id user_id : Option String) : String :=
  "\n    SELECT set_test_jwt_claims('" ++ role_name ++ "', \n" ++
  "                               " ++ encodeClaim branch_id ++ ", \n" ++
  "                               " ++ encodeClaim user_id ++ ");\n    "

/-- The claim-clearing SQL of source line 132. -/
def clear_claims_sql : String := "SELECT clear_test_jwt_claims();"

/-- A line of 80 equals signs (`'=' * 80`). -/
def eqBar : String := String.mk (List.replicate 80 '=')

/-- A line of 80 dashes (`'-' * 80`). -/
def dashBar : String := String.mk (List.replicate 80 '-')

/-- The suite header printed by source lines 88-94; the branch and user lines
appear only when the value is truthy. -/
def headerLines (role_name : String) (branch_id user_id : Option String) : List String :=
  ("\n" ++ eqBar) ::
  ("🧪 TESTING ROLE: " ++ role_name) ::
  ((if pyTruthy branch_id then ["   Branch: " ++ branch_id.getD ""] else []) ++
   (if pyTruthy user_id then ["   User ID: " ++ user_id.getD ""] else []) ++
   [eqBar])

/-- What one call of `run_test` produces: the verdicts of its cases, the SQL
texts it sent (in order), and the lines it printed. -/
structure RunResult where
  verdicts : List Verdict
  calls : List String
  output : List String
  deriving DecidableEq, Repr

/-- `run_test` (source lines 86-135), consuming the response stream from
position `n`; the second component is the next unconsumed stream position.

If the claim-setting call raises, the function prints the failure and returns
at once (source line 108): no test query runs and no clearing call is made.
Otherwise every case runs, and afterwards the clearing call is always made,
its own failure swallowed by the bare `except: pass` (source lines 130-135). -/
def run_test (db : DB) (n : Nat) (role_name : String) (branch_id user_id : Option String)
    (test_queries : List TestCase) : RunResult × Nat :=
  let setSql := set_claims_sql role_name branch_id user_id
  let hdr := headerLines role_name branch_id user_id
  match db n with
  | Except.error e =>
      ({ verdicts := [], calls := [setSql],
         output := hdr ++ ["❌ Failed to set JWT claims: " ++ e] }, n + 1)
  | Except.ok _ =>
      let clearOut : List String :=
        match db (n + 1 + test_queries.length) with
        | Except.ok _ => ["\n✅ JWT claims cleared"]
        | Except.error _ => []
      ({ verdicts := runCases db (n + 1) test_queries,
         calls := (setSql :: test_queries.map (fun c => c.query)) ++ [clear_claims_sql],
         output := hdr ++ ("✅ JWT claims set for " ++ role_name) ::
                   (casesOutput db (n + 1) test_queries ++ clearOut) },
       n + 1 + test_queries.length + 1)

/-- The fixture/seed SQL of source lines 51-74 (conflict-tolerant inserts), sent as the second RPC call. -/
def test_data_sql : String :=
  "\n-- Insert test members for different branches\nINSERT INTO \"Member\" (id, \"userId\", \"memberNumber\", \"firstName\", \"lastName\", email, \"idPassportNumber\", \"physicalAddress\", telephone, \"dateOfBirth\", \"nextOfKinName\", \"nextOfKinPhone\", \"nextOfKinRelationship\", \"branchId\")\nVALUES \n  ('test-mem-001', 'user-001', 'MEM001', 'John', 'Doe', 'john@branch1.com', 'ID001', 'Address 1', '0701000001', '1990-01-01', 'Jane Doe', '0702000001', 'Spouse', 'branch-001'),\n  ('test-mem-002', 'user-002', 'MEM002', 'Mary', 'Smith', 'mary@branch1.com', 'ID002', 'Address 2', '0701000002', '1985-05-15', 'Tom Smith', '0702000002', 'Spouse', 'branch-001'),\n  ('test-mem-003', 'user-003', 'MEM003', 'Peter', 'Jones', 'peter@branch2.com', 'ID003', 'Address 3', '0701000003', '1992-03-20', 'Sarah Jones', '0702000003', 'Spouse', 'branch-002'),\n  ('test-mem-004', 'user-004', 'MEM004', 'Alice', 'Brown', 'alice@branch2.com', 'ID004', 'Address 4', '0701000004', '1988-07-10', 'Bob Brown', '0702000004', 'Spouse', 'branch-002')\nON CONFLICT (id) DO NOTHING;\n\n-- Insert test loans\nINSERT INTO \"Loan\" (id, \"memberId\", \"loanType\", amount, \"interestRate\", duration, status, \"applicationDate\", \"branchId\")\nVALUES\n  ('test-loan-001', 'test-mem-001', 'PERSONAL', 50000, 12.5, 12, 'APPROVED', NOW(), 'branch-001'),\n  ('test-loan-002', 'test-mem-003', 'BUSINESS', 100000, 10.0, 24, 'PENDING', NOW(), 'branch-002')\nON CONFLICT (id) DO NOTHING;\n\n-- Insert test savings\nINSERT INTO \"Saving\" (id, \"memberId\", amount, \"transactionType\", \"transactionDate\", \"branchId\")\nVALUES\n  ('test-sav-001', 'test-mem-001', 10000, 'DEPOSIT', NOW(), 'branch-001'),\n  ('test-sav-002', 'test-mem-003', 15000, 'DEPOSIT', NOW(), 'branch-002')\nON CONFLICT (id) DO NOTHING;\n"

/-- The AUDITOR test catalog (source lines 145-165). -/
def auditor_tests : List TestCase :=
  [
   { test_name := "View all members",
     query := "SELECT COUNT(*) FROM \"Member\";",
     expected_result := "SUCCESS" },
   { test_name := "View branch-001 members",
     query := "SELECT COUNT(*) FROM \"Member\" WHERE \"branchId\" = 'branch-001';",
     expected_result := "SUCCESS" },
   { test_name := "View branch-002 members",
     query := "SELECT COUNT(*) FROM \"Member\" WHERE \"branchId\" = 'branch-002';",
     expected_result := "SUCCESS" },
   { test_name := "Try to insert member (should fail)",
     query := "INSERT INTO \"Member\" (id, \"userId\", \"memberNumber\", \"firstName\", \"lastName\", email, \"idPassportNumber\", \"physicalAddress\", telephone, \"dateOfBirth\", \"nextOfKinName\", \"nextOfKinPhone\", \"nextOfKinRelationship\", \"branchId\") VALUES ('audit-test', 'u-audit', 'MAUD', 'Audit', 'Test', 'audit@test.com', 'AUD001', 'Addr', '0700000000', '1990-01-01', 'Next', '0700000001', 'Spouse', 'branch-001');",
     expected_result := "FAIL" },
   { test_name := "View all loans",
     query := "SELECT COUNT(*) FROM \"Loan\";",
     expected_result := "SUCCESS" }
  ]

/-- The CLERK test catalog (source lines 172-192). -/
def clerk_tests : List TestCase :=
  [
   { test_name := "View own branch members",
     query := "SELECT COUNT(*) FROM \"Member\" WHERE \"branchId\" = 'branch-001';",
     expected_result := "SUCCESS" },
   { test_name := "Try to view other branch members (should show 0)",
     query := "SELECT COUNT(*) FROM \"Member\" WHERE \"branchId\" = 'branch-002';",
     expected_result := "SUCCESS" },
   { test_name := "Insert member in own branch",
     query := "INSERT INTO \"Member\" (id, \"userId\", \"memberNumber\", \"firstName\", \"lastName\", email, \"idPassportNumber\", \"physicalAddress\", telephone, \"dateOfBirth\", \"nextOfKinName\", \"nextOfKinPhone\", \"nextOfKinRelationship\", \"branchId\") VALUES ('clerk-test-001', 'u-clerk-001', 'MCLK001', 'Clerk', 'Test1', 'clerk1@test.com', 'CLK001', 'Addr', '0701111111', '1990-01-01', 'Next', '0702111111', 'Spouse', 'branch-001');",
     expected_result := "SUCCESS" },
   { test_name := "Try to insert member in other branch (should fail)",
     query := "INSERT INTO \"Member\" (id, \"userId\", \"memberNumber\", \"firstName\", \"lastName\", email, \"idPassportNumber\", \"physicalAddress\", telephone, \"dateOfBirth\", \"nextOfKinName\", \"nextOfKinPhone\", \"nextOfKinRelationship\", \"branchId\") VALUES ('clerk-test-002', 'u-clerk-002', 'MCLK002', 'Clerk', 'Test2', 'clerk2@test.com', 'CLK002', 'Addr', '0701111112', '1990-01-01', 'Next', '0702111112', 'Spouse', 'branch-002');",
     expected_result := "FAIL" },
   { test_name := "Try to update member (should fail - clerk can only insert/select)",
     query := "UPDATE \"Member\" SET \"firstName\" = 'Updated' WHERE id = 'test-mem-001';",
     expected_result := "FAIL" }
  ]

/-- The MANAGER test catalog (source lines 199-223). -/
def manager_tests : List TestCase :=
  [
   { test_name := "View own branch members",
     query := "SELECT COUNT(*) FROM \"Member\" WHERE \"branchId\" = 'branch-002';",
     expected_result := "SUCCESS" },
   { test_name := "Try to view other branch (should show 0)",
     query := "SELECT COUNT(*) FROM \"Member\" WHERE \"branchId\" = 'branch-001';",
     expected_result := "SUCCESS" },
   { test_name := "Update member in own branch",
     query := "UPDATE \"Member\" SET \"firstName\" = 'UpdatedByManager' WHERE id = 'test-mem-003';",
     expected_result := "SUCCESS" },
   { test_name := "Insert member in own branch",
     query := "INSERT INTO \"Member\" (id, \"userId\", \"memberNumber\", \"firstName\", \"lastName\", email, \"idPassportNumber\", \"physicalAddress\", telephone, \"dateOfBirth\", \"nextOfKinName\", \"nextOfKinPhone\", \"nextOfKinRelationship\", \"branchId\") VALUES ('mgr-test-001', 'u-mgr-001', 'MMGR001', 'Manager', 'Test', 'manager@test.com', 'MGR001', 'Addr', '0703333333', '1990-01-01', 'Next', '0704333333', 'Spouse', 'branch-002');",
     expected_result := "SUCCESS" },
   { test_name := "Try to delete loan (should fail - only admin)",
     query := "DELETE FROM \"Loan\" WHERE id = 'test-loan-002';",
     expected_result := "FAIL" },
   { test_name := "Try to delete member (should succeed - member table allows manager delete)",
     query := "DELETE FROM \"Member\" WHERE id = 'mgr-test-001';",
     expected_result := "SUCCESS" }
  ]

/-- The ADMIN test catalog (source lines 230-258). -/
def admin_tests : List TestCase :=
  [
   { test_name := "View all members",
     query := "SELECT COUNT(*) FROM \"Member\";",
     expected_result := "SUCCESS" },
   { test_name := "View branch-001 members",
     query := "SELECT COUNT(*) FROM \"Member\" WHERE \"branchId\" = 'branch-001';",
     expected_result := "SUCCESS" },
   { test_name := "View branch-002 members",
     query := "SELECT COUNT(*) FROM \"Member\" WHERE \"branchId\" = 'branch-002';",
     expected_result := "SUCCESS" },
   { test_name := "Update any member",
     query := "UPDATE \"Member\" SET \"firstName\" = 'AdminUpdated' WHERE id = 'test-mem-001';",
     expected_result := "SUCCESS" },
   { test_name := "Insert member in any branch",
     query := "INSERT INTO \"Member\" (id, \"userId\", \"memberNumber\", \"firstName\", \"lastName\", email, \"idPassportNumber\", \"physicalAddress\", telephone, \"dateOfBirth\", \"nextOfKinName\", \"nextOfKinPhone\", \"nextOfKinRelationship\", \"branchId\") VALUES ('admin-test-001', 'u-admin-001', 'MADM001', 'Admin', 'Test', 'admin@test.com', 'ADM001', 'Addr', '0705555555', '1990-01-01', 'Next', '0706555555', 'Spouse', 'branch-003');",
     expected_result := "SUCCESS" },
   { test_name := "Delete loan (should succeed - admin can delete)",
     query := "DELETE FROM \"Loan\" WHERE id = 'test-loan-001';",
     expected_result := "SUCCESS" },
   { test_name := "Delete member",
     query := "DELETE FROM \"Member\" WHERE id = 'admin-test-001';",
     expected_result := "SUCCESS" }
  ]

/-- The MEMBER test catalog (source lines 265-285). -/
def member_tests : List TestCase :=
  [
   { test_name := "View own member record",
     query := "SELECT COUNT(*) FROM \"Member\" WHERE \"userId\" = 'user-001';",
     expected_result := "SUCCESS" },
   { test_name := "Try to view other members (should show 0)",
     query := "SELECT COUNT(*) FROM \"Member\" WHERE \"userId\" != 'user-001';",
     expected_result := "SUCCESS" },
   { test_name := "View own loans",
     query := "SELECT COUNT(*) FROM \"Loan\" l JOIN \"Member\" m ON m.id = l.\"memberId\" WHERE m.\"userId\" = 'user-001';",
     expected_result := "SUCCESS" },
   { test_name := "Try to insert member (should fail)",
     query := "INSERT INTO \"Member\" (id, \"userId\", \"memberNumber\", \"firstName\", \"lastName\", email, \"idPassportNumber\", \"physicalAddress\", telephone, \"dateOfBirth\", \"nextOfKinName\", \"nextOfKinPhone\", \"nextOfKinRelationship\", \"branchId\") VALUES ('mem-test-001', 'u-mem-001', 'MMEM001', 'Member', 'Test', 'member@test.com', 'MEM001', 'Addr', '0707777777', '1990-01-01', 'Next', '0708777777', 'Spouse', 'branch-001');",
     expected_result := "FAIL" },
   { test_name := "Try to update own record (should fail)",
     query := "UPDATE \"Member\" SET \"firstName\" = 'MemberUpdated' WHERE \"userId\" = 'user-001';",
     expected_result := "FAIL" }
  ]

/-- One role suite as the orchestrator invokes it: the arguments of one
`run_test` call (source lines 167, 194, 225, 260, 287). -/
structure RoleSuite where
  role : String
  branch_id : Option String
  user_id : Option String
  cases : List TestCase
  deriving DecidableEq, Repr

/-- The fixed catalog of the five `run_test` invocations, in source order. -/
def catalog : List RoleSuite :=
  [ { role := "AUDITOR", branch_id := none, user_id := none, cases := auditor_tests },
    { role := "CLERK", branch_id := some "branch-001", user_id := some "clerk-user-001",
      cases := clerk_tests },
    { role := "MANAGER", branch_id := some "branch-002", user_id := some "manager-user-002",
      cases := manager_tests },
    { role := "ADMIN", branch_id := none, user_id := some "admin-user-000",
      cases := admin_tests },
    { role := "MEMBER", branch_id := none, user_id := some "user-001", cases := member_tests } ]

/-- The straight-line sequence of `run_test` calls, threading the response
stream position; pairs each report with its role name. -/
def runAll (db : DB) : Nat → List RoleSuite → List (String × RunResult) × Nat
  | n, [] => ([], n)
  | n, s :: rest =>
      let p := run_test db n s.role s.branch_id s.user_id s.cases
      let q := runAll db p.2 rest
      ((s.role, p.1) :: q.1, q.2)

/-- The two environment variables the script reads (source lines 15-16), as
`os.getenv` returns them: `none` when unset. -/
structure Env where
  SUPABASE_URL : Option String
  SUPABASE_SERVICE_ROLE_KEY : Option String
  deriving DecidableEq, Repr

/-- The whole script's observable behaviour: its process exit code, the five
role reports (empty when it aborted on configuration), and the print
transcript. -/
structure ScriptResult where
  exitCode : Nat
  reports : List (String × RunResult)
  output : List String
  deriving DecidableEq, Repr

/-- The opening banner and STEP 1 header (source lines 24-31). -/
def opening_banner : List String :=
  [eqBar, "RLS ROLE TESTING SCRIPT", eqBar, "",
   "📝 STEP 1: Running RLS Migration...", dashBar]

/-- The STEP 2 header (source lines 45-49). -/
def step2_banner : List String :=
  ["", "📝 STEP 2: Creating Test Data...", dashBar]

/-- The banner before the role suites (source lines 83, 138-140). -/
def starting_banner : List String :=
  ["", "\n" ++ eqBar, "STARTING ROLE-BASED ACCESS CONTROL TESTS", eqBar]

/-- The final summary block (source lines 292-307): a fixed sequence of
constant prints, independent of anything the suites produced. -/
def summary_lines : List String :=
  ["\n" ++ eqBar,
   "✅ RLS ROLE TESTING COMPLETED",
   eqBar,
   "",
   "Summary of Tests:",
   "  1. ✅ AUDITOR - Read-only access to all branches",
   "  2. ✅ CLERK - Insert/Select in own branch only",
   "  3. ✅ MANAGER - Full CRUD in own branch, cannot delete transactions",
   "  4. ✅ ADMIN - Full access to all branches",
   "  5. ✅ MEMBER - View own records only",
   "",
   "📋 Next Steps:",
   "  1. Review test results above",
   "  2. Assign branchId to existing Member records",
   "  3. Update member creation to include branchId",
   "  4. Test with actual JWT tokens from your API",
   ""]

/-- The whole script (source lines 15-307).

The guard is source line 18, `if not SUPABASE_URL or not SUPABASE_SERVICE_KEY:
... exit(1)` — Python truthiness, so an unset or empty variable aborts with
exit code 1.  Otherwise the script runs to the end and the process exits 0.

Stream position 0 answers the migration step (source lines 33-43: the file
read and the RPC share one try block, so one fallible step), position 1 the
fixture step (`test_data_sql`, source lines 76-81); both failures are printed
and execution continues.  Positions from 2 on are consumed by the five
`run_test` calls in catalog order. -/
def script (env : Env) (db : DB) : ScriptResult :=
  if !pyTruthy env.SUPABASE_URL || !pyTruthy env.SUPABASE_SERVICE_ROLE_KEY then
    { exitCode := 1, reports := [],
      output := ["❌ Error: SUPABASE_URL and SUPABASE_SERVICE_ROLE_KEY must be set in .env"] }
  else
    let migrationOut : List String :=
      match db 0 with
      | Except.ok _ => ["✅ Migration executed successfully!"]
      | Except.error e =>
          ["⚠️  Migration execution: " ++ e,
           "   Note: You may need to run this manually in Supabase SQL Editor",
           "   Continuing with tests assuming migration is already applied..."]
    let fixtureOut : List String :=
      match db 1 with
      | Except.ok _ => ["✅ Test data created successfully!"]
      | Except.error e =>
          ["⚠️  Test data creation: " ++ e,
           "   Creating test data via Supabase client instead..."]
    let reports := (runAll db 2 catalog).1
    { exitCode := 0, reports := reports,
      output := opening_banner ++ migrationOut ++ step2_banner ++ fixtureOut ++
                starting_banner ++ (reports.map (fun p => p.2.output)).flatten ++
                summary_lines }

/-- A response stream on which every RPC call returns (with empty data). -/
def dbAllOk : DB := fun _ => Except.ok ""

/-- A response stream on which every RPC call raises. -/
def dbAllErr : DB := fun _ => Except.error "permission denied"

/-- An environment with both required variables set and non-empty. -/
def envBoth : Env :=
  { SUPABASE_URL := some "https://example.supabase.co",
    SUPABASE_SERVICE_ROLE_KEY := some "service-key" }

/-- An environment missing the service-role key. -/
def envNoKey : Env :=
  { SUPABASE_URL := some "https://example.supabase.co",
    SUPABASE_SERVICE_ROLE_KEY := none }

/-- A stream whose first call (the claim-setting call at position 0) returns
and whose later calls (the test queries) all raise. -/
def dbSetOkCasesErr : DB :=
  fun k => if k = 0 then Except.ok "set" else Except.error "permission denied for table Member"

/-- A stream on which only the clearing call of a five-case suite started at
position 0 (stream position 6) raises. -/
def dbOkButClearErr : DB :=
  fun k => if k = 6 then Except.error "network reset" else Except.ok ""

theorem runCases_length (db : DB) (n : Nat) (cs : List TestCase) :
    (runCases db n cs).length = cs.length := by
  induction cs generalizing n with
  | nil => rfl
  | cons c rest ih => simp [runCases, ih]

theorem runCases_getElem (db : DB) (n i : Nat) (cs : List TestCase) :
    (runCases db n cs)[i]? = cs[i]?.map (mkVerdict (db (n + i))) := by
  induction cs generalizing n i with
  | nil => simp [runCases]
  | cons c rest ih =>
    cases i with
    | zero => simp [runCases]
    | succ j =>
      have heq : n + (j + 1) = n + 1 + j := by omega
      simpa [runCases, heq] using ih (n + 1) j

theorem runCases_agree (db db2 : DB) (n : Nat) (cs : List TestCase)
    (h : ∀ i, i < cs.length → db (n + i) = db2 (n + i)) :
    runCases db n cs = runCases db2 n cs := by
  induction cs generalizing n with
  | nil => rfl
  | cons c rest ih =>
    have h0 : db n = db2 n := h 0 (by simp)
    have hrest : ∀ i, i < rest.length → db (n + 1 + i) = db2 (n + 1 + i) := by
      intro i hi
      have hcall := h (i + 1) (by simpa using Nat.succ_lt_succ hi)
      have heq : n + (i + 1) = n + 1 + i := by omega
      rw [heq] at hcall
      exact hcall
    simp [runCases, h0, ih (n + 1) hrest]

theorem casesOutput_agree (db db2 : DB) (n : Nat) (cs : List TestCase)
    (h : ∀ i, i < cs.length → db (n + i) = db2 (n + i)) :
    casesOutput db n cs = casesOutput db2 n cs := by
  induction cs generalizing n with
  | nil => rfl
  | cons c rest ih =>
    have h0 : db n = db2 n := h 0 (by simp)
    have hrest : ∀ i, i < rest.length → db (n + 1 + i) = db2 (n + 1 + i) := by
      intro i hi
      have hcall := h (i + 1) (by simpa using Nat.succ_lt_succ hi)
      have heq : n + (i + 1) = n + 1 + i := by omega
      rw [heq] at hcall
      exact hcall
    simp [casesOutput, h0, ih (n + 1) hrest]

theorem runAll_roles (db : DB) (n : Nat) (suites : List RoleSuite) :
    (runAll db n suites).1.map Prod.fst = suites.map RoleSuite.role := by
  induction suites generalizing n with
  | nil => rfl
  | cons s rest ih => simp [runAll, ih]

/-- C1: the Expectation Classifier's verdict follows the rule table —
expectation `SUCCESS` with a succeeded outcome yields PASS and with a failed
outcome UNEXPECTED_FAIL; expectation `FAIL` yields PASS exactly when the
outcome failed, and UNEXPECTED_SUCCESS when it succeeded. -/
theorem classify_rule_table (o : ExecutionOutcome) :
    (o.succeeded = true → classify "SUCCESS" o = Classification.PASS) ∧
    (o.succeeded = false → classify "SUCCESS" o = Classification.UNEXPECTED_FAIL) ∧
    (classify "FAIL" o = Classification.PASS ↔ o.succeeded = false) ∧
    (o.succeeded = true → classify "FAIL" o = Classification.UNEXPECTED_SUCCESS) := by
  rcases o with ⟨s, p, e⟩
  cases s <;> simp [classify]

theorem classify_rule_table_witness :
    classify "SUCCESS" (mkOutcome (Except.ok "4")) = Classification.PASS ∧
    classify "FAIL" (mkOutcome (Except.error "denied")) = Classification.PASS :=
  ⟨(classify_rule_table (mkOutcome (Except.ok "4"))).1 rfl,
   (classify_rule_table (mkOutcome (Except.error "denied"))).2.2.1.mpr rfl⟩

/-- C3: when the claim-setting call of a suite succeeds, every test case
produces exactly one verdict, in declared order, and the verdict of the i-th
case is a function of that case and of its own RPC response alone — so a case
whose execution fails cannot prevent later cases from producing theirs. -/
theorem one_verdict_per_case (db : DB) (n : Nat) (role_name : String)
    (branch_id user_id : Option String) (test_queries : List TestCase)
    (w : String) (hset : db n = Except.ok w) :
    (run_test db n role_name branch_id user_id test_queries).1.verdicts.length =
      test_queries.length ∧
    (∀ i : Nat,
      ((run_test db n role_name branch_id user_id test_queries).1.verdicts[i]?).map Verdict.tc =
        test_queries[i]?) ∧
    (∀ i : Nat,
      (run_test db n role_name branch_id user_id test_queries).1.verdicts[i]? =
        test_queries[i]?.map (mkVerdict (db (n + 1 + i)))) := by
  refine ⟨?_, ?_, ?_⟩
  · simp [run_test, hset, runCases_length]
  · intro i
    simp only [run_test, hset]
    rw [runCases_getElem]
    cases h : test_queries[i]? <;> simp [h, mkVerdict]
  · intro i
    simp only [run_test, hset]
    rw [runCases_getElem]

theorem one_verdict_per_case_witness :
    (run_test dbSetOkCasesErr 0 "AUDITOR" none none auditor_tests).1.verdicts.length =
      auditor_tests.length :=
  (one_verdict_per_case dbSetOkCasesErr 0 "AUDITOR" none none auditor_tests "set" rfl).1

/-- C4: no failure escapes the statement-execution boundary — when the RPC
call answering the i-th case raises, the runner still produces the i-th
verdict, whose outcome has `succeeded = false` and the exception text
captured in `error`, and whose classification is the classifier's
reconciliation of that outcome against the case's expectation. -/
theorem executor_failure_captured (db : DB) (n : Nat) (role_name : String)
    (branch_id user_id : Option String) (test_queries : List TestCase)
    (w : String) (hset : db n = Except.ok w)
    (i : Nat) (c : TestCase) (e : String)
    (hc : test_queries[i]? = some c) (he : db (n + 1 + i) = Except.error e) :
    (run_test db n role_name branch_id user_id test_queries).1.verdicts[i]? =
      some { tc := c,
             outcome := { succeeded := false, payload := none, error := some e },
             classification := classify c.expected_result
               { succeeded := false, payload := none, error := some e } } := by
  simp only [run_test, hset]
  rw [runCases_getElem, hc, he]
  rfl

theorem executor_failure_captured_witness :
    (run_test dbSetOkCasesErr 0 "AUDITOR" none none auditor_tests).1.verdicts[0]? =
      some { tc := { test_name := "View all members",
                     query := "SELECT COUNT(*) FROM \"Member\";",
                     expected_result := "SUCCESS" },
             outcome := { succeeded := false, payload := none,
                          error := some "permission denied for table Member" },
             classification := Classification.UNEXPECTED_FAIL } :=
  executor_failure_captured dbSetOkCasesErr 0 "AUDITOR" none none auditor_tests
    "set" rfl 0
    { test_name := "View all members",
      query := "SELECT COUNT(*) FROM \"Member\";",
      expected_result := "SUCCESS" }
    "permission denied for table Member" rfl rfl

/-- C2 counterexample: on a stream whose claim-setting call raises, `run_test`
returns with zero verdicts and has sent only the claim-setting statement — the
clearing statement is never attempted (the `return` at source line 108 skips
the clearing block at lines 130-135). -/
theorem set_claims_failure_skips_clear :
    (run_test dbAllErr 0 "AUDITOR" none none auditor_tests).1.verdicts = [] ∧
    (run_test dbAllErr 0 "AUDITOR" none none auditor_tests).1.calls =
      [set_claims_sql "AUDITOR" none none] ∧
    clear_claims_sql ∉ (run_test dbAllErr 0 "AUDITOR" none none auditor_tests).1.calls := by
  refine ⟨rfl, rfl, ?_⟩
  decide

/-- C2 amended: when the claim-setting call fails, the runner produces a
report with zero verdicts and returns at once, WITHOUT attempting the
clearing call; the clearing call is attempted (exactly once, as the last
statement sent, regardless of the cases' outcomes) only when claim-setting
succeeded. -/
theorem clear_only_after_successful_set (db : DB) (n : Nat) (role_name : String)
    (branch_id user_id : Option String) (test_queries : List TestCase) :
    (∀ e, db n = Except.error e →
      (run_test db n role_name branch_id user_id test_queries).1.verdicts = [] ∧
      (run_test db n role_name branch_id user_id test_queries).1.calls =
        [set_claims_sql role_name branch_id user_id]) ∧
    (∀ w, db n = Except.ok w →
      (run_test db n role_name branch_id user_id test_queries).1.calls =
        (set_claims_sql role_name branch_id user_id ::
          test_queries.map (fun c => c.query)) ++ [clear_claims_sql]) := by
  constructor
  · intro e he
    simp [run_test, he]
  · intro w hw
    simp [run_test, hw]

theorem clear_only_after_successful_set_witness :
    (run_test dbAllOk 0 "AUDITOR" none none auditor_tests).1.calls =
      (set_claims_sql "AUDITOR" none none ::
        auditor_tests.map (fun c => c.query)) ++ [clear_claims_sql] :=
  (clear_only_after_successful_set dbAllOk 0 "AUDITOR" none none auditor_tests).2 "" rfl

/-- C5: an absent branch or user scope is encoded into the claim-setting call
as the SQL keyword `NULL`, never as an empty or empty-quoted string. -/
theorem absent_scope_encoded_null :
    encodeClaim none = "NULL" ∧ encodeClaim none ≠ "''" ∧ encodeClaim none ≠ "" ∧
    (∀ (role_name : String) (user_id : Option String),
      set_claims_sql role_name none user_id =
        "\n    SELECT set_test_jwt_claims('" ++ role_name ++ "', \n" ++
        "                               " ++ "NULL" ++ ", \n" ++
        "                               " ++ encodeClaim user_id ++ ");\n    ") ∧
    (∀ (role_name : String) (branch_id : Option String),
      set_claims_sql role_name branch_id none =
        "\n    SELECT set_test_jwt_claims('" ++ role_name ++ "', \n" ++
        "                               " ++ encodeClaim branch_id ++ ", \n" ++
        "                               " ++ "NULL" ++ ");\n    ") :=
  ⟨rfl, by decide, by decide, fun _ _ => rfl, fun _ _ => rfl⟩

theorem absent_scope_encoded_null_witness :
    set_claims_sql "AUDITOR" none (some "user-001") =
      "\n    SELECT set_test_jwt_claims('" ++ "AUDITOR" ++ "', \n" ++
      "                               " ++ "NULL" ++ ", \n" ++
      "                               " ++ encodeClaim (some "user-001") ++ ");\n    " :=
  absent_scope_encoded_null.2.2.2.1 "AUDITOR" (some "user-001")

/-- C8: an empty-string branch or user id is treated exactly as an absent one
(Python truthiness makes both falsy): the whole observable behaviour of
`run_test` — header, claim-setting SQL, verdicts, calls, transcript — is
identical, so a caller cannot express an empty scope distinct from no scope. -/
theorem empty_scope_equals_absent (db : DB) (n : Nat) (role_name : String)
    (other : Option String) (test_queries : List TestCase) :
    run_test db n role_name (some "") other test_queries =
      run_test db n role_name none other test_queries ∧
    run_test db n role_name other (some "") test_queries =
      run_test db n role_name other none test_queries ∧
    encodeClaim (some "") = encodeClaim none ∧
    set_claims_sql role_name (some "") (some "") = set_claims_sql role_name none none := by
  refine ⟨?_, ?_, rfl, rfl⟩ <;>
    cases h : db n <;>
      simp [run_test, h, headerLines, set_claims_sql, encodeClaim, pyTruthy]

/-- C9: any expectation string other than `"SUCCESS"` and `"FAIL"` falls to
the catch-all branches: a successful outcome is surfaced as a pass whose
printed line carries the payload, a failed outcome is classified as an
unexpected failure — no expectation string is ever rejected. -/
theorem unknown_expectation_catch_all (expected_result : String)
    (h1 : expected_result ≠ "SUCCESS") (h2 : expected_result ≠ "FAIL") :
    (∀ d, classify expected_result (mkOutcome (Except.ok d)) = Classification.PASS ∧
          classLine expected_result (Except.ok d) = "   ✅ Result: " ++ d) ∧
    (∀ e, classify expected_result (mkOutcome (Except.error e)) =
            Classification.UNEXPECTED_FAIL) := by
  refine ⟨fun d => ⟨?_, ?_⟩, fun e => ?_⟩ <;> simp [classify, classLine, mkOutcome, h1, h2]

theorem unknown_expectation_catch_all_witness :
    classify "VALUE" (mkOutcome (Except.ok "42")) = Classification.PASS ∧
    classLine "VALUE" (Except.ok "42") = "   ✅ Result: 42" ∧
    classify "VALUE" (mkOutcome (Except.error "boom")) = Classification.UNEXPECTED_FAIL :=
  ⟨((unknown_expectation_catch_all "VALUE" (by decide) (by decide)).1 "42").1,
   ((unknown_expectation_catch_all "VALUE" (by decide) (by decide)).1 "42").2,
   (unknown_expectation_catch_all "VALUE" (by decide) (by decide)).2 "boom"⟩

/-- C6: the process exits non-zero exactly when a required connection
configuration value is absent (unset, or empty — source line 18 tests Python
truthiness); with both values present the exit code is 0 for EVERY response
stream, so migration, fixture and individual test failures never alter it,
and all five role suites are still reached. -/
theorem exit_code_contract (env : Env) (db : DB) :
    ((script env db).exitCode ≠ 0 ↔
      (pyTruthy env.SUPABASE_URL = false ∨
       pyTruthy env.SUPABASE_SERVICE_ROLE_KEY = false)) ∧
    (pyTruthy env.SUPABASE_URL = true → pyTruthy env.SUPABASE_SERVICE_ROLE_KEY = true →
      (script env db).exitCode = 0 ∧
      (script env db).reports.map Prod.fst =
        ["AUDITOR", "CLERK", "MANAGER", "ADMIN", "MEMBER"]) := by
  cases hu : pyTruthy env.SUPABASE_URL <;>
    cases hk : pyTruthy env.SUPABASE_SERVICE_ROLE_KEY <;>
      simp [script, hu, hk, runAll_roles, catalog]

theorem exit_code_contract_witness :
    (script envNoKey dbAllOk).exitCode ≠ 0 ∧
    (script envBoth dbAllErr).exitCode = 0 ∧
    (script envBoth dbAllErr).reports.map Prod.fst =
      ["AUDITOR", "CLERK", "MANAGER", "ADMIN", "MEMBER"] :=
  ⟨(exit_code_contract envNoKey dbAllOk).1.mpr (Or.inr rfl),
   ((exit_code_contract envBoth dbAllErr).2 rfl rfl).1,
   ((exit_code_contract envBoth dbAllErr).2 rfl rfl).2⟩

/-- C7 counterexample: two runs whose suites produce different reports (on
`dbAllOk` the five suites yield 5, 5, 6, 7 and 5 verdicts; on `dbAllErr`
every claim-setting call fails and each suite yields zero verdicts) both end
with the same fixed `summary_lines` block — so the emitted summary block is a
constant and does not aggregate (concatenate) the RoleReports. -/
theorem summary_ignores_reports :
    (script envBoth dbAllOk).reports.map (fun p => p.2.verdicts.length) = [5, 5, 6, 7, 5] ∧
    (script envBoth dbAllErr).reports.map (fun p => p.2.verdicts.length) = [0, 0, 0, 0, 0] ∧
    (∃ p, (script envBoth dbAllOk).output = p ++ summary_lines) ∧
    (∃ p, (script envBoth dbAllErr).output = p ++ summary_lines) :=
  ⟨rfl, rfl, ⟨_, rfl⟩, ⟨_, rfl⟩⟩

/-- C7 amended: the orchestrator runs exactly the five role suites in the
fixed order AUDITOR, CLERK, MANAGER, ADMIN, MEMBER, and the final summary
block it emits is the fixed constant `summary_lines`, independent of the
verdicts the suites produced. -/
theorem suite_order_and_fixed_summary (env : Env) (db : DB)
    (hu : pyTruthy env.SUPABASE_URL = true)
    (hk : pyTruthy env.SUPABASE_SERVICE_ROLE_KEY = true) :
    (script env db).reports.map Prod.fst =
      ["AUDITOR", "CLERK", "MANAGER", "ADMIN", "MEMBER"] ∧
    ∃ p, (script env db).output = p ++ summary_lines := by
  constructor
  · simp [script, hu, hk, runAll_roles, catalog]
  · unfold script
    rw [hu, hk]
    exact ⟨_, rfl⟩

theorem suite_order_and_fixed_summary_witness :
    (script envBoth dbAllOk).reports.map Prod.fst =
      ["AUDITOR", "CLERK", "MANAGER", "ADMIN", "MEMBER"] ∧
    ∃ p, (script envBoth dbAllOk).output = p ++ summary_lines :=
  suite_order_and_fixed_summary envBoth dbAllOk rfl rfl

/-- C10: a failure of the clearing call at the end of a suite is swallowed by
the bare `except: pass` (source lines 130-135): comparing any two response
streams that agree everywhere except at the clearing call — raising on one,
returning on the other — the only observable difference is the absence of the
`JWT claims cleared` success line; verdicts, statements sent and the position
returned to the caller are identical, and nothing is printed for the failure. -/
theorem clear_failure_silent (db db2 : DB) (n : Nat) (role_name : String)
    (branch_id user_id : Option String) (test_queries : List TestCase)
    (w e v : String)
    (hset : db n = Except.ok w)
    (hagree : ∀ i, i ≠ n + 1 + test_queries.length → db i = db2 i)
    (hclr : db (n + 1 + test_queries.length) = Except.error e)
    (hclr2 : db2 (n + 1 + test_queries.length) = Except.ok v) :
    (run_test db n role_name branch_id user_id test_queries).1.output ++
        ["\n✅ JWT claims cleared"] =
      (run_test db2 n role_name branch_id user_id test_queries).1.output ∧
    (run_test db n role_name branch_id user_id test_queries).1.verdicts =
      (run_test db2 n role_name branch_id user_id test_queries).1.verdicts ∧
    (run_test db n role_name branch_id user_id test_queries).1.calls =
      (run_test db2 n role_name branch_id user_id test_queries).1.calls ∧
    (run_test db n role_name branch_id user_id test_queries).2 =
      (run_test db2 n role_name branch_id user_id test_queries).2 := by
  have hn : db2 n = Except.ok w := by
    rw [← hagree n (by omega)]
    exact hset
  have hcs : runCases db (n + 1) test_queries = runCases db2 (n + 1) test_queries :=
    runCases_agree db db2 (n + 1) test_queries
      (fun i hi => hagree (n + 1 + i) (by omega))
  have hout : casesOutput db (n + 1) test_queries = casesOutput db2 (n + 1) test_queries :=
    casesOutput_agree db db2 (n + 1) test_queries
      (fun i hi => hagree (n + 1 + i) (by omega))
  refine ⟨?_, ?_, ?_, ?_⟩ <;> simp [run_test, hset, hn, hclr, hclr2, hcs, hout]

theorem dbOkButClearErr_agree :
    ∀ i, i ≠ 0 + 1 + auditor_tests.length → dbOkButClearErr i = dbAllOk i := by
  intro i hi
  rw [show 0 + 1 + auditor_tests.length = 6 from rfl] at hi
  simp [dbOkButClearErr, dbAllOk, hi]

theorem clear_failure_silent_witness :
    (run_test dbOkButClearErr 0 "AUDITOR" none none auditor_tests).1.output ++
        ["\n✅ JWT claims cleared"] =
      (run_test dbAllOk 0 "AUDITOR" none none auditor_tests).1.output ∧
    (run_test dbOkButClearErr 0 "AUDITOR" none none auditor_tests).1.verdicts =
      (run_test dbAllOk 0 "AUDITOR" none none auditor_tests).1.verdicts :=
  ⟨(clear_failure_silent dbOkButClearErr dbAllOk 0 "AUDITOR" none none auditor_tests
      "" "network reset" ""
      rfl dbOkButClearErr_agree rfl rfl).1,
   (clear_failure_silent dbOkButClearErr dbAllOk 0 "AUDITOR" none none auditor_tests
      "" "network reset" ""
      rfl dbOkButClearErr_agree rfl rfl).2.1⟩
